import Mathlib

/-!
Verification of the call-frame core of the boa virtual machine
(`src/core/engine/src/vm/call_frame/mod.rs`), shallowly embedded in Lean.

Machine integers (`u32`, `u8`, `i32`) are modelled as `Nat`/`Int`; wherever
overflow or underflow could occur the relevant theorem carries the invariant
from the spec (`rp ≥ argument_count + 2`) as a hypothesis.  Rust panics,
failed `debug_assert!`s and `unreachable!`s are modelled as `none` of an
`Option`-typed result.
-/

/-- Modelled from the spec: object references of the value model, which lives
outside the supplied core.  An object carries an identity and whether it is
callable, the only attributes this core inspects. -/
structure JsObject where
  id : Nat
  callable : Bool
deriving DecidableEq, Repr

/-- Modelled from the spec: the dynamic value type (`JsValue`).  The core only
distinguishes integer-typed values, object-typed values and the undefined
placeholder; remaining variants are carried so that "any other value" claims
quantify over genuinely non-integer, non-object values. -/
inductive JsValue where
  | undefined
  | null
  | boolean (b : Bool)
  | integer (i : Int)
  | rational
  | string (s : String)
  | object (o : JsObject)
deriving DecidableEq, Repr

/-- Modelled from the spec: `JsValue::as_i32` is `Some` exactly on
integer-typed values. -/
def JsValue.as_i32 : JsValue → Option Int
  | .integer i => some i
  | _ => none

/-- Modelled from the spec: `JsValue::as_object` is `Some` exactly on
object-typed values. -/
def JsValue.as_object : JsValue → Option JsObject
  | .object o => some o
  | _ => none

/-- Modelled from the spec: a `JsFunction` wraps an object reference. -/
structure JsFunction where
  object : JsObject
deriving DecidableEq, Repr

/-- Modelled from the spec: `JsFunction::from_object` succeeds exactly when the
object is callable. -/
def JsFunction.from_object (o : JsObject) : Option JsFunction :=
  if o.callable then some ⟨o⟩ else none

/-- Modelled from the spec: the resolve/reject pair of a promise capability. -/
structure ResolvingFunctions where
  resolve : JsFunction
  reject : JsFunction
deriving DecidableEq, Repr

/-- Modelled from the spec: the capability triple
(promise, resolve function, reject function). -/
structure PromiseCapability where
  promise : JsObject
  functions : ResolvingFunctions
deriving DecidableEq, Repr

def PromiseCapability.resolve (c : PromiseCapability) : JsFunction :=
  c.functions.resolve

def PromiseCapability.reject (c : PromiseCapability) : JsFunction :=
  c.functions.reject

/-- `GeneratorResumeKind` from the source: Normal = 0, Throw = 1, Return = 2. -/
inductive GeneratorResumeKind where
  | Normal
  | Throw
  | Return
deriving DecidableEq, Repr

/-- The `repr(u8)` discriminant of a `GeneratorResumeKind`. -/
def GeneratorResumeKind.toU8 : GeneratorResumeKind → Nat
  | .Normal => 0
  | .Throw => 1
  | .Return => 2

/-- `impl From<GeneratorResumeKind> for JsValue`: `JsValue::new(value as u8)`,
an integer-typed value. -/
def GeneratorResumeKind.toJsValue (k : GeneratorResumeKind) : JsValue :=
  JsValue.integer k.toU8

/-- `JsValue::to_generator_resume_kind`: matches `as_i32` against 0, 1, 2;
every other case is an `unreachable!` panic, modelled as `none`. -/
def JsValue.to_generator_resume_kind (v : JsValue) : Option GeneratorResumeKind :=
  match v.as_i32 with
  | some value =>
      if value = 0 then some GeneratorResumeKind.Normal
      else if value = 1 then some GeneratorResumeKind.Throw
      else if value = 2 then some GeneratorResumeKind.Return
      else none
  | none => none

example : (GeneratorResumeKind.toJsValue .Throw).to_generator_resume_kind = some .Throw := by decide

example : (JsValue.integer 7).to_generator_resume_kind = none := by decide

/-- Modelled from the spec: the code descriptor (`CodeBlock`) exposes the
"is async" and "is async generator" markers consulted by this core. -/
structure CodeBlock where
  is_async : Bool
  is_async_generator : Bool
deriving DecidableEq, Repr

/-- Modelled from the spec: the `Registers` collaborator exposes indexed
get/set; modelled as a total map from register index to value. -/
def Registers : Type := Nat → JsValue

/-- `Registers::get`. -/
def Registers.get (r : Registers) (index : Nat) : JsValue := r index

/-- `Registers::set`. -/
def Registers.set (r : Registers) (index : Nat) (value : JsValue) : Registers :=
  fun j => if j = index then value else r j

/-- The VM as seen from this core: the shared execution value stack. -/
structure Vm where
  stack : List JsValue

/-- The `CallFrameFlags` bit constants (a `bitflags` bitset over `u8`). -/
def CallFrameFlags.EXIT_EARLY : Nat := 1

def CallFrameFlags.CONSTRUCT : Nat := 2

def CallFrameFlags.REGISTERS_ALREADY_PUSHED : Nat := 4

def CallFrameFlags.THIS_VALUE_CACHED : Nat := 8

/-- `CallFrameFlags::contains`: all bits of the mask are set. -/
def CallFrameFlags.contains (flags mask : Nat) : Bool :=
  flags &&& mask == mask

/-- `CallFrameFlags::set`: insert the mask's bits when `value` is true,
remove them (`bits &= !mask` over `u8`) when it is false. -/
def CallFrameFlags.setFlag (flags mask : Nat) (value : Bool) : Nat :=
  if value then flags ||| mask else flags &&& (255 ^^^ mask)

/-- The `CallFrame` fields this core's operations consult.  The collaborator
references it merely carries (environments, realm, iterator and binding
lists, …) are omitted: no operation under verification reads them. -/
structure CallFrame where
  code_block : CodeBlock
  pc : Nat
  rp : Nat
  argument_count : Nat
  env_fp : Nat
  flags : Nat
deriving DecidableEq, Repr

def CallFrame.FUNCTION_PROLOGUE : Nat := 2

def CallFrame.THIS_POSITION : Nat := 2

def CallFrame.FUNCTION_POSITION : Nat := 1

def CallFrame.PROMISE_CAPABILITY_PROMISE_REGISTER_INDEX : Nat := 0

def CallFrame.PROMISE_CAPABILITY_RESOLVE_REGISTER_INDEX : Nat := 1

def CallFrame.PROMISE_CAPABILITY_REJECT_REGISTER_INDEX : Nat := 2

def CallFrame.ASYNC_GENERATOR_OBJECT_REGISTER_INDEX : Nat := 3

/-- `CallFrame::this`: reads the stack at `rp - argument_count - THIS_POSITION`.
The out-of-bounds panic (and the `u32` underflow when
`rp < argument_count + 2`) is modelled as `none`. -/
def CallFrame.this (f : CallFrame) (vm : Vm) : Option JsValue :=
  if f.argument_count + CallFrame.THIS_POSITION ≤ f.rp then
    vm.stack.get? (f.rp - f.argument_count - CallFrame.THIS_POSITION)
  else none

/-- `CallFrame::function`: reads the stack at
`rp - argument_count - FUNCTION_POSITION` and keeps the value only when it is
an object.  The outer `Option` models the panics (index out of bounds,
`u32` underflow); the inner one is the source's own `Option<JsObject>`. -/
def CallFrame.function (f : CallFrame) (vm : Vm) : Option (Option JsObject) :=
  if f.argument_count + CallFrame.FUNCTION_POSITION ≤ f.rp then
    (vm.stack.get? (f.rp - f.argument_count - CallFrame.FUNCTION_POSITION)).map
      JsValue.as_object
  else none

/-- `CallFrame::arguments`: the stack slice
`[rp - argument_count .. rp)`.  `none` models the slice-indexing panic. -/
def CallFrame.arguments (f : CallFrame) (vm : Vm) : Option (List JsValue) :=
  if f.argument_count ≤ f.rp ∧ f.rp ≤ vm.stack.length then
    some (((vm.stack).drop (f.rp - f.argument_count)).take f.argument_count)
  else none

/-- `CallFrame::argument`: `self.arguments(vm).get(index)`. -/
def CallFrame.argument (f : CallFrame) (index : Nat) (vm : Vm) :
    Option (Option JsValue) :=
  (f.arguments vm).map (fun args => args.get? index)

/-- `CallFrame::fp`: `rp - argument_count - FUNCTION_PROLOGUE` (`u32`
subtraction; here `Nat` truncated subtraction, with the invariant
`rp ≥ argument_count + 2` carried by the theorems). -/
def CallFrame.fp (f : CallFrame) : Nat :=
  f.rp - f.argument_count - CallFrame.FUNCTION_PROLOGUE

/-- `CallFrame::restore_stack`: truncates the shared stack to `fp()`. -/
def CallFrame.restore_stack (f : CallFrame) (vm : Vm) : Vm :=
  { vm with stack := vm.stack.take f.fp }

/-- `CallFrame::async_generator_object`: `None` unless the code descriptor is
an async generator, else the object at reserved register index 3, if any. -/
def CallFrame.async_generator_object (f : CallFrame) (registers : Registers) :
    Option JsObject :=
  if !f.code_block.is_async_generator then none
  else (registers.get CallFrame.ASYNC_GENERATOR_OBJECT_REGISTER_INDEX).as_object

/-- `CallFrame::promise_capability`: `None` unless the code descriptor is
async; else requires an object at register 0 and callable objects at
registers 1 and 2, failing to `None` otherwise. -/
def CallFrame.promise_capability (f : CallFrame) (registers : Registers) :
    Option PromiseCapability :=
  if !f.code_block.is_async then none
  else do
    let promise ← (registers.get CallFrame.PROMISE_CAPABILITY_PROMISE_REGISTER_INDEX).as_object
    let resolve ← (registers.get CallFrame.PROMISE_CAPABILITY_RESOLVE_REGISTER_INDEX).as_object.bind
      JsFunction.from_object
    let reject ← (registers.get CallFrame.PROMISE_CAPABILITY_REJECT_REGISTER_INDEX).as_object.bind
      JsFunction.from_object
    pure { promise := promise, functions := { resolve := resolve, reject := reject } }

/-- The value written for one component of the capability:
`capability.map(component).cloned().map_or_else(JsValue::undefined, Into::into)`. -/
def capabilityComponentValue (capability : Option PromiseCapability)
    (component : PromiseCapability → JsObject) : JsValue :=
  match capability with
  | some c => JsValue.object (component c)
  | none => JsValue.undefined

/-- `CallFrame::set_promise_capability`: asserts the code descriptor is async
(the failed `debug_assert!` is modelled as the fatal result `none`), then
writes the three components (or undefined placeholders) into registers 0–2. -/
def CallFrame.set_promise_capability (f : CallFrame) (registers : Registers)
    (promise_capability : Option PromiseCapability) : Option Registers :=
  if !f.code_block.is_async then none
  else
    some
      (((registers.set CallFrame.PROMISE_CAPABILITY_PROMISE_REGISTER_INDEX
          (capabilityComponentValue promise_capability (fun c => c.promise))).set
        CallFrame.PROMISE_CAPABILITY_RESOLVE_REGISTER_INDEX
          (capabilityComponentValue promise_capability (fun c => c.resolve.object))).set
        CallFrame.PROMISE_CAPABILITY_REJECT_REGISTER_INDEX
          (capabilityComponentValue promise_capability (fun c => c.reject.object)))

/-- `CallFrame::exit_early`. -/
def CallFrame.exit_early (f : CallFrame) : Bool :=
  CallFrameFlags.contains f.flags CallFrameFlags.EXIT_EARLY

/-- `CallFrame::set_exit_early`. -/
def CallFrame.set_exit_early (f : CallFrame) (early_exit : Bool) : CallFrame :=
  { f with flags := CallFrameFlags.setFlag f.flags CallFrameFlags.EXIT_EARLY early_exit }

/-- `CallFrame::construct`. -/
def CallFrame.construct (f : CallFrame) : Bool :=
  CallFrameFlags.contains f.flags CallFrameFlags.CONSTRUCT

/-- `CallFrame::registers_already_pushed`. -/
def CallFrame.registers_already_pushed (f : CallFrame) : Bool :=
  CallFrameFlags.contains f.flags CallFrameFlags.REGISTERS_ALREADY_PUSHED

/-- `CallFrame::has_this_value_cached`. -/
def CallFrame.has_this_value_cached (f : CallFrame) : Bool :=
  CallFrameFlags.contains f.flags CallFrameFlags.THIS_VALUE_CACHED

/-! ## Sample inputs, used by the witnesses

The layout follows the worked example of the spec: a frame with
`argument_count = 2` and `rp = 6`, whose prologue and arguments occupy stack
indices `2..6`. -/

def funcObj : JsObject := { id := 1, callable := true }

def sampleCode : CodeBlock := { is_async := false, is_async_generator := false }

def asyncCode : CodeBlock := { is_async := true, is_async_generator := false }

def asyncGenCode : CodeBlock := { is_async := true, is_async_generator := true }

def sampleFrame : CallFrame :=
  { code_block := sampleCode, pc := 0, rp := 6, argument_count := 2, env_fp := 0, flags := 0 }

def sampleVm : Vm :=
  { stack := [JsValue.undefined, JsValue.null, JsValue.integer 10,
      JsValue.object funcObj, JsValue.integer 1, JsValue.integer 2] }

/-! ## Claims -/

/-- C1: whenever `rp ≥ argument_count + 2`, `fp()` returns
`rp − argument_count − 2`, and `this(vm)` reads exactly the stack slot at
index `fp()`. -/
theorem this_reads_fp_slot (f : CallFrame) (vm : Vm)
    (h : f.argument_count + 2 ≤ f.rp) :
    (f.fp : Int) = (f.rp : Int) - f.argument_count - 2 ∧
    f.this vm = vm.stack.get? f.fp := by
  constructor
  · simp only [CallFrame.fp, CallFrame.FUNCTION_PROLOGUE]
    omega
  · simp only [CallFrame.this, CallFrame.THIS_POSITION, CallFrame.fp,
      CallFrame.FUNCTION_PROLOGUE]
    rw [if_pos (by omega)]

/-- Witness for C1 at the spec's worked example (`rp = 6`,
`argument_count = 2`, `fp = 2`). -/
theorem this_reads_fp_slot_witness :
    sampleFrame.argument_count + 2 ≤ sampleFrame.rp ∧
    ((sampleFrame.fp : Int) = (sampleFrame.rp : Int) - sampleFrame.argument_count - 2 ∧
      sampleFrame.this sampleVm = sampleVm.stack.get? sampleFrame.fp) :=
  ⟨by decide, this_reads_fp_slot sampleFrame sampleVm (by decide)⟩

/-- C2: each `GeneratorResumeKind` round-trips through its `JsValue`
encoding, and `to_generator_resume_kind` on any value that is not an
integer in `{0,1,2}` is the fatal (`unreachable!`) path, modelled `none`. -/
theorem resume_kind_roundtrip_and_fatal :
    (∀ k : GeneratorResumeKind, k.toJsValue.to_generator_resume_kind = some k) ∧
    (∀ v : JsValue, (∀ i : Int, v = JsValue.integer i → i ≠ 0 ∧ i ≠ 1 ∧ i ≠ 2) →
      v.to_generator_resume_kind = none) := by
  constructor
  · intro k
    cases k <;> rfl
  · intro v h
    cases v with
    | integer i =>
        obtain ⟨h0, h1, h2⟩ := h i rfl
        simp [JsValue.to_generator_resume_kind, JsValue.as_i32, h0, h1, h2]
    | undefined => rfl
    | null => rfl
    | boolean b => rfl
    | rational => rfl
    | string s => rfl
    | object o => rfl

/-- Witness for C2: round trip at `Return`, fatal path at the integer 5. -/
theorem resume_kind_roundtrip_and_fatal_witness :
    GeneratorResumeKind.Return.toJsValue.to_generator_resume_kind =
      some GeneratorResumeKind.Return ∧
    (JsValue.integer 5).to_generator_resume_kind = none :=
  ⟨resume_kind_roundtrip_and_fatal.1 GeneratorResumeKind.Return,
    resume_kind_roundtrip_and_fatal.2 (JsValue.integer 5)
      (by intro i hi; injection hi with hi; constructor; omega; constructor <;> omega)⟩

/-- C4: on a valid frame (`rp ≥ argument_count + 2`, slot in range),
`function(vm)` succeeds and its result is present exactly when the stack slot
at `fp() + 1` holds an object reference; otherwise it is absent without
unwinding. -/
theorem function_present_iff_object_slot (f : CallFrame) (vm : Vm)
    (h : f.argument_count + 2 ≤ f.rp) (hlen : f.fp + 1 < vm.stack.length) :
    ∃ v, vm.stack.get? (f.fp + 1) = some v ∧
      f.function vm = some v.as_object ∧
      (v.as_object.isSome ↔ ∃ o, v = JsValue.object o) := by
  have hidx : f.rp - f.argument_count - 1 = f.fp + 1 := by
    simp only [CallFrame.fp, CallFrame.FUNCTION_PROLOGUE]
    omega
  refine ⟨vm.stack.get ⟨f.fp + 1, hlen⟩, ?_, ?_, ?_⟩
  · simp
  · simp only [CallFrame.function, CallFrame.FUNCTION_POSITION]
    rw [if_pos (by omega), hidx]
    simp only [List.get?_eq_getElem?, List.getElem?_eq_getElem hlen, Option.map_some']
    simp
  · cases hv : vm.stack.get ⟨f.fp + 1, hlen⟩ <;>
      simp [JsValue.as_object]

/-- Witness for C4 at the spec's worked example: the slot at `fp + 1 = 3`
holds the function object. -/
theorem function_present_iff_object_slot_witness :
    sampleFrame.argument_count + 2 ≤ sampleFrame.rp ∧
    sampleFrame.fp + 1 < sampleVm.stack.length ∧
    ∃ v, sampleVm.stack.get? (sampleFrame.fp + 1) = some v ∧
      sampleFrame.function sampleVm = some v.as_object ∧
      (v.as_object.isSome ↔ ∃ o, v = JsValue.object o) :=
  ⟨by decide, by decide,
    function_present_iff_object_slot sampleFrame sampleVm (by decide) (by decide)⟩

/-- C6: on a frame with `rp ≥ argument_count + 2` and a stack of length
`≥ rp`, `restore_stack` leaves a stack of length exactly `fp()`: slots below
`fp()` are unchanged and slots at or above it are discarded. -/
theorem restore_stack_truncates_to_fp (f : CallFrame) (vm : Vm)
    (h : f.argument_count + 2 ≤ f.rp) (hlen : f.rp ≤ vm.stack.length) :
    (f.restore_stack vm).stack.length = f.fp ∧
    (∀ i, i < f.fp → (f.restore_stack vm).stack.get? i = vm.stack.get? i) ∧
    (∀ i, f.fp ≤ i → (f.restore_stack vm).stack.get? i = none) := by
  have hfp : f.fp ≤ vm.stack.length := by
    have : f.fp ≤ f.rp := by
      simp only [CallFrame.fp, CallFrame.FUNCTION_PROLOGUE]
      omega
    omega
  refine ⟨?_, ?_, ?_⟩
  · simp [CallFrame.restore_stack, Nat.min_eq_left hfp]
  · intro i hi
    simp [CallFrame.restore_stack, List.getElem?_take_of_lt hi]
  · intro i hi
    have : (vm.stack.take f.fp).length ≤ i := by
      simp [Nat.min_eq_left hfp]
      omega
    simp [CallFrame.restore_stack, List.getElem?_eq_none this]

/-- Witness for C6 at the spec's worked example: the stack is truncated from
length 6 to length `fp = 2`. -/
theorem restore_stack_truncates_to_fp_witness :
    sampleFrame.argument_count + 2 ≤ sampleFrame.rp ∧
    sampleFrame.rp ≤ sampleVm.stack.length ∧
    ((sampleFrame.restore_stack sampleVm).stack.length = sampleFrame.fp ∧
      (∀ i, i < sampleFrame.fp →
        (sampleFrame.restore_stack sampleVm).stack.get? i = sampleVm.stack.get? i) ∧
      (∀ i, sampleFrame.fp ≤ i →
        (sampleFrame.restore_stack sampleVm).stack.get? i = none)) :=
  ⟨by decide, by decide,
    restore_stack_truncates_to_fp sampleFrame sampleVm (by decide) (by decide)⟩

/-- C8: on a frame with `rp ≥ argument_count + 2` and a stack of length
`≥ rp`, `arguments` is the contiguous slice `[fp+2, fp+2+argument_count)` in
call order, and `argument(index)` is that slice's element for
`index < argument_count` and absent (without failing) beyond it. -/
theorem arguments_slice_and_argument_bounds (f : CallFrame) (vm : Vm)
    (h : f.argument_count + 2 ≤ f.rp) (hlen : f.rp ≤ vm.stack.length) :
    ∃ args, f.arguments vm = some args ∧
      args.length = f.argument_count ∧
      (∀ i, i < f.argument_count → args.get? i = vm.stack.get? (f.fp + 2 + i)) ∧
      (∀ i, i < f.argument_count → f.argument i vm = some (args.get? i)) ∧
      (∀ i, f.argument_count ≤ i → f.argument i vm = some none) := by
  have hstart : f.rp - f.argument_count = f.fp + 2 := by
    simp only [CallFrame.fp, CallFrame.FUNCTION_PROLOGUE]
    omega
  have hargs : f.arguments vm =
      some ((vm.stack.drop (f.rp - f.argument_count)).take f.argument_count) := by
    simp only [CallFrame.arguments]
    rw [if_pos ⟨by omega, hlen⟩]
  refine ⟨(vm.stack.drop (f.rp - f.argument_count)).take f.argument_count,
    hargs, ?_, ?_, ?_, ?_⟩
  · simp only [List.length_take, List.length_drop]
    omega
  · intro i hi
    simp only [List.get?_eq_getElem?, List.getElem?_take_of_lt hi,
      List.getElem?_drop, hstart]
  · intro i hi
    simp [CallFrame.argument, hargs]
  · intro i hi
    simp [CallFrame.argument, hargs]
    exact Or.inl hi

/-- Witness for C8 at the spec's worked example: the arguments are the slice
at indices `[4, 6)`, and index 2 is out of bounds. -/
theorem arguments_slice_and_argument_bounds_witness :
    sampleFrame.argument_count + 2 ≤ sampleFrame.rp ∧
    sampleFrame.rp ≤ sampleVm.stack.length ∧
    ∃ args, sampleFrame.arguments sampleVm = some args ∧
      args.length = sampleFrame.argument_count ∧
      (∀ i, i < sampleFrame.argument_count →
        args.get? i = sampleVm.stack.get? (sampleFrame.fp + 2 + i)) ∧
      (∀ i, i < sampleFrame.argument_count →
        sampleFrame.argument i sampleVm = some (args.get? i)) ∧
      (∀ i, sampleFrame.argument_count ≤ i →
        sampleFrame.argument i sampleVm = some none) :=
  ⟨by decide, by decide,
    arguments_slice_and_argument_bounds sampleFrame sampleVm (by decide) (by decide)⟩

/-! ## Further sample inputs for the capability and flag claims -/

def promiseObj : JsObject := { id := 4, callable := false }

def resolveObj : JsObject := { id := 2, callable := true }

def rejectObj : JsObject := { id := 3, callable := true }

def sampleCap : PromiseCapability :=
  { promise := promiseObj,
    functions := { resolve := ⟨resolveObj⟩, reject := ⟨rejectObj⟩ } }

def emptyRegisters : Registers := fun _ => JsValue.undefined

def asyncFrame : CallFrame :=
  { code_block := asyncCode, pc := 0, rp := 6, argument_count := 2, env_fp := 0, flags := 0 }

def asyncGenFrame : CallFrame :=
  { code_block := asyncGenCode, pc := 0, rp := 6, argument_count := 2, env_fp := 0, flags := 0 }

def genObj : JsObject := { id := 5, callable := false }

def genRegisters : Registers :=
  Registers.set emptyRegisters 3 (JsValue.object genObj)

/-- The register state produced by `set_promise_capability` on
`emptyRegisters` with `sampleCap`. -/
def writtenRegisters : Registers :=
  ((emptyRegisters.set CallFrame.PROMISE_CAPABILITY_PROMISE_REGISTER_INDEX
      (JsValue.object promiseObj)).set
    CallFrame.PROMISE_CAPABILITY_RESOLVE_REGISTER_INDEX
      (JsValue.object resolveObj)).set
    CallFrame.PROMISE_CAPABILITY_REJECT_REGISTER_INDEX
      (JsValue.object rejectObj)

/-- C3: on an async frame, `set_promise_capability` with a capability whose
resolve/reject are callable, followed by `promise_capability`, returns a
capability equal to the one set; on a non-async frame `promise_capability`
is absent regardless of register contents. -/
theorem promise_capability_roundtrip_and_non_async_absent :
    (∀ (f : CallFrame) (regs : Registers) (cap : PromiseCapability) (written : Registers),
      f.code_block.is_async = true →
      cap.resolve.object.callable = true →
      cap.reject.object.callable = true →
      f.set_promise_capability regs (some cap) = some written →
      f.promise_capability written = some cap) ∧
    (∀ (f : CallFrame) (regs : Registers),
      f.code_block.is_async = false → f.promise_capability regs = none) := by
  constructor
  · intro f regs cap written hasync hres hrej hset
    simp only [CallFrame.set_promise_capability, hasync, Bool.not_true, Bool.false_eq_true,
      if_false, Option.some.injEq] at hset
    subst hset
    simp only [PromiseCapability.resolve, PromiseCapability.reject] at hres hrej
    simp [CallFrame.promise_capability, hasync, Registers.get, Registers.set,
      CallFrame.PROMISE_CAPABILITY_PROMISE_REGISTER_INDEX,
      CallFrame.PROMISE_CAPABILITY_RESOLVE_REGISTER_INDEX,
      CallFrame.PROMISE_CAPABILITY_REJECT_REGISTER_INDEX,
      capabilityComponentValue, JsValue.as_object, JsFunction.from_object, hres, hrej,
      PromiseCapability.resolve, PromiseCapability.reject]
  · intro f regs h
    simp [CallFrame.promise_capability, h]

/-- Witness for C3: round trip of `sampleCap` on an async frame, and absence
on the non-async `sampleFrame`. -/
theorem promise_capability_roundtrip_witness :
    asyncFrame.code_block.is_async = true ∧
    sampleCap.resolve.object.callable = true ∧
    sampleCap.reject.object.callable = true ∧
    asyncFrame.set_promise_capability emptyRegisters (some sampleCap) = some writtenRegisters ∧
    asyncFrame.promise_capability writtenRegisters = some sampleCap ∧
    sampleFrame.promise_capability emptyRegisters = none :=
  ⟨by decide, by decide, by decide, rfl,
    promise_capability_roundtrip_and_non_async_absent.1 asyncFrame emptyRegisters
      sampleCap writtenRegisters (by decide) (by decide) (by decide) rfl,
    promise_capability_roundtrip_and_non_async_absent.2 sampleFrame emptyRegisters
      (by decide)⟩

/-- C5: `async_generator_object` is absent on any frame not marked async
generator; on an async-generator frame it returns the object at reserved
register index 3 when that slot is object-typed, and is absent otherwise. -/
theorem async_generator_object_spec :
    (∀ (f : CallFrame) (regs : Registers),
      f.code_block.is_async_generator = false → f.async_generator_object regs = none) ∧
    (∀ (f : CallFrame) (regs : Registers),
      f.code_block.is_async_generator = true →
      (∀ o, regs.get CallFrame.ASYNC_GENERATOR_OBJECT_REGISTER_INDEX = JsValue.object o →
        f.async_generator_object regs = some o) ∧
      ((∀ o, regs.get CallFrame.ASYNC_GENERATOR_OBJECT_REGISTER_INDEX ≠ JsValue.object o) →
        f.async_generator_object regs = none)) := by
  constructor
  · intro f regs h
    simp [CallFrame.async_generator_object, h]
  · intro f regs h
    constructor
    · intro o ho
      simp [CallFrame.async_generator_object, h, ho, JsValue.as_object]
    · intro hno
      simp only [CallFrame.async_generator_object, h, Bool.not_true, Bool.false_eq_true, if_false]
      cases hv : regs.get CallFrame.ASYNC_GENERATOR_OBJECT_REGISTER_INDEX with
      | object o => exact absurd hv (hno o)
      | undefined => rfl
      | null => rfl
      | boolean b => rfl
      | integer i => rfl
      | rational => rfl
      | string s => rfl

/-- Witness for C5: absent on the non-async-generator `sampleFrame`; on
`asyncGenFrame` it returns the object stored at register 3. -/
theorem async_generator_object_spec_witness :
    sampleFrame.async_generator_object emptyRegisters = none ∧
    asyncGenFrame.async_generator_object genRegisters = some genObj :=
  ⟨async_generator_object_spec.1 sampleFrame emptyRegisters (by decide),
    (async_generator_object_spec.2 asyncGenFrame genRegisters (by decide)).1 genObj (by decide)⟩

/-- C7: calling `set_promise_capability` on a frame whose code descriptor is
not async hits the assertion, modelled as the fatal result `none`, for every
register state and capability argument. -/
theorem set_promise_capability_non_async_fatal (f : CallFrame) (regs : Registers)
    (cap : Option PromiseCapability) (h : f.code_block.is_async = false) :
    f.set_promise_capability regs cap = none := by
  simp [CallFrame.set_promise_capability, h]

/-- Witness for C7 on the non-async `sampleFrame`. -/
theorem set_promise_capability_non_async_fatal_witness :
    sampleFrame.code_block.is_async = false ∧
    sampleFrame.set_promise_capability emptyRegisters (some sampleCap) = none :=
  ⟨by decide,
    set_promise_capability_non_async_fatal sampleFrame emptyRegisters (some sampleCap) (by decide)⟩

/-- Containment of a single-bit mask is exactly that bit of the flags. -/
theorem contains_two_pow (x k : Nat) :
    CallFrameFlags.contains x (2 ^ k) = x.testBit k := by
  simp only [CallFrameFlags.contains, Nat.and_two_pow]
  cases h : x.testBit k
  · simp [Nat.ne_of_lt (Nat.two_pow_pos k)]
  · simp

/-- C9: `set_exit_early b` followed by `exit_early()` returns `b`, and the
other three flags, as read by `construct()`, `registers_already_pushed()` and
`has_this_value_cached()`, are unchanged. -/
theorem set_exit_early_roundtrip_and_independent (f : CallFrame) (b : Bool) :
    (f.set_exit_early b).exit_early = b ∧
    (f.set_exit_early b).construct = f.construct ∧
    (f.set_exit_early b).registers_already_pushed = f.registers_already_pushed ∧
    (f.set_exit_early b).has_this_value_cached = f.has_this_value_cached := by
  have e1 : CallFrameFlags.EXIT_EARLY = 2 ^ 0 := rfl
  have e2 : CallFrameFlags.CONSTRUCT = 2 ^ 1 := rfl
  have e4 : CallFrameFlags.REGISTERS_ALREADY_PUSHED = 2 ^ 2 := rfl
  have e8 : CallFrameFlags.THIS_VALUE_CACHED = 2 ^ 3 := rfl
  simp only [CallFrame.set_exit_early, CallFrame.exit_early, CallFrame.construct,
    CallFrame.registers_already_pushed, CallFrame.has_this_value_cached,
    CallFrameFlags.setFlag, e1, e2, e4, e8, contains_two_pow]
  cases b
  · simp only [Bool.false_eq_true, if_false]
    refine ⟨?_, ?_, ?_, ?_⟩ <;>
      simp [(show Nat.testBit 254 0 = false by decide),
        (show Nat.testBit 254 1 = true by decide),
        (show Nat.testBit 254 2 = true by decide),
        (show Nat.testBit 254 3 = true by decide)]
  · simp only [if_true]
    refine ⟨?_, ?_, ?_, ?_⟩ <;>
      simp [(show Nat.testBit 1 0 = true by decide),
        (show Nat.testBit 1 1 = false by decide),
        (show Nat.testBit 1 2 = false by decide),
        (show Nat.testBit 1 3 = false by decide)]

/-- C10: a successful `set_promise_capability` writes only the three reserved
registers 0–2: every register at index 3 or higher, in particular the
async-generator-object slot, is unchanged, for any capability argument. -/
theorem set_promise_capability_preserves_high_registers (f : CallFrame)
    (regs : Registers) (cap : Option PromiseCapability) (written : Registers)
    (hset : f.set_promise_capability regs cap = some written) :
    ∀ j, CallFrame.ASYNC_GENERATOR_OBJECT_REGISTER_INDEX ≤ j →
      written.get j = regs.get j := by
  intro j hj
  simp only [CallFrame.set_promise_capability] at hset
  rcases h : !f.code_block.is_async with _ | _
  · rw [h, if_neg (by simp)] at hset
    have hw := Option.some.inj hset
    subst hw
    have hj3 : 3 ≤ j := hj
    simp only [Registers.get, Registers.set,
      CallFrame.PROMISE_CAPABILITY_PROMISE_REGISTER_INDEX,
      CallFrame.PROMISE_CAPABILITY_RESOLVE_REGISTER_INDEX,
      CallFrame.PROMISE_CAPABILITY_REJECT_REGISTER_INDEX]
    rw [if_neg (by omega), if_neg (by omega), if_neg (by omega)]
  · rw [h, if_pos rfl] at hset
    exact absurd hset (by simp)

/-- Witness for C10: on the async frame, register 3 (holding an object) is
untouched by `set_promise_capability`. -/
theorem set_promise_capability_preserves_high_registers_witness :
    asyncFrame.set_promise_capability genRegisters (some sampleCap) ≠ none ∧
    (∀ written, asyncFrame.set_promise_capability genRegisters (some sampleCap) = some written →
      written.get 3 = genRegisters.get 3) := by
  refine ⟨by simp [asyncFrame, asyncCode, CallFrame.set_promise_capability], ?_⟩
  intro written hset
  exact set_promise_capability_preserves_high_registers asyncFrame genRegisters
    (some sampleCap) written hset 3 (by decide)
